import Mathlib

/-!
Formal model of the particle point-cloud application in
src/valentines/src/main.js.

The JavaScript source is shallowly embedded over exact rationals for the
classifier, the text shape generator and the morph engine, and over the
reals for the planet shape (whose construction uses acos, sqrt, sin, cos
and pi).  External collaborators (the MediaPipe landmark source and the
canvas text rasterizer) are abstracted as parameters: a landmark frame is
an optional list of landmark positions, and a rasterized text bitmap is a
function giving the red channel value at each pixel.  Math.random draws
are modelled as explicit streams of values in the unit interval.
-/

namespace Valentines

/-- Three-component rational vector mirroring THREE.Vector3 as used by the
classifier, the text shapes and the morph engine. -/
structure Vec3 where
  x : ℚ
  y : ℚ
  z : ℚ
deriving DecidableEq

/-- THREE.Vector3.lerp on one component: a + (b - a) * t. -/
def lerp1 (a b t : ℚ) : ℚ := a + (b - a) * t

/-- THREE.Vector3.lerp(w, t) applied to v, componentwise. -/
def lerpVec (v w : Vec3) (t : ℚ) : Vec3 :=
  ⟨lerp1 v.x w.x t, lerp1 v.y w.y t, lerp1 v.z w.z t⟩

/-- Componentwise difference of vectors. -/
def vsub (a b : Vec3) : Vec3 := ⟨a.x - b.x, a.y - b.y, a.z - b.z⟩

/-- Scalar multiplication of a vector. -/
def smul (c : ℚ) (v : Vec3) : Vec3 := ⟨c * v.x, c * v.y, c * v.z⟩

/-- Squared Euclidean norm of a vector. -/
def norm2 (v : Vec3) : ℚ := v.x ^ 2 + v.y ^ 2 + v.z ^ 2

/-- Squared Euclidean distance between two vectors. -/
def dist2 (a b : Vec3) : ℚ := norm2 (vsub a b)

/-- const SMOOTHING = 0.08 (line 8). -/
def SMOOTHING : ℚ := 8 / 100

/-- const ELASTICITY = 0.05 (line 9). -/
def ELASTICITY : ℚ := 5 / 100

/-- The gesture states of the application (string values of currentGesture). -/
inductive Gesture where
  | none
  | peace
  | rock
  | like
  | fist
  | detected
deriving DecidableEq

/-- Lines 162 to 166 of main.js: the gesture decision from the four finger
predicates, in source order with first match winning. -/
def classifyGesture (indexUp middleUp pinkyUp thumbUp : Bool) : Gesture :=
  if indexUp && middleUp && !pinkyUp then Gesture.peace
  else if indexUp && pinkyUp && !middleUp then Gesture.rock
  else if thumbUp && !indexUp && !middleUp then Gesture.like
  else if !indexUp && !middleUp && !pinkyUp then Gesture.fist
  else Gesture.detected

/-- Modelled from the words of the priority table in section 4.2 of the
specification, to be compared against classifyGesture, which is read off
the source: rules are tried top to bottom and the first match wins, with
detected as the fallback. -/
def gestureSpecTable (indexUp middleUp pinkyUp thumbUp : Bool) : Gesture :=
  if indexUp && middleUp && !pinkyUp then Gesture.peace
  else if indexUp && pinkyUp && !middleUp then Gesture.rock
  else if thumbUp && !indexUp && !middleUp then Gesture.like
  else if !indexUp && !middleUp && !pinkyUp then Gesture.fist
  else Gesture.detected

/-- One normalized 2-D hand landmark as delivered by the landmark source. -/
structure Landmark where
  x : ℚ
  y : ℚ
deriving DecidableEq

/-- The mutable state owned by the gesture classifier:
currentGesture (line 11) and handDisplacement (line 13). -/
structure ClassifierState where
  currentGesture : Gesture
  handDisplacement : Vec3
deriving DecidableEq

/-- Line 169 of main.js: handDisplacement.lerp(new Vector3(0,0,0), 0.05). -/
def decayStep (d : Vec3) : Vec3 := lerpVec d ⟨0, 0, 0⟩ (5 / 100)

/-- JavaScript runtime errors that the embedded code can raise.  The source
contains no deliberate configuration check, so configError is never
produced by any embedded function; it exists so that statements can
distinguish an accidental TypeError from a deliberate rejection. -/
inductive JsError where
  | typeError
  | configError
deriving DecidableEq

/-- Lines 150 to 171 of main.js, the hands.onResults callback, as a state
transformer that also reports whether the callback threw.  A frame is
either a detected hand (a list of landmarks, results.multiHandLandmarks[0])
or no hand.  With a hand present the code writes handDisplacement.x and
handDisplacement.y from lm[0] and then reads the tip and joint landmarks
8, 6, 12, 10, 20, 18, 4, 2; in JavaScript a read past the end of the list
yields undefined and the subsequent .x or .y access throws a TypeError,
leaving the earlier writes in place and the gesture unchanged.  With no
hand the gesture is forced to none and the displacement decays toward the
zero vector. -/
def onResultsRun (hand : Option (List Landmark)) (st : ClassifierState) :
    ClassifierState × Option JsError :=
  match hand with
  | Option.none =>
      ({ currentGesture := Gesture.none,
         handDisplacement := decayStep st.handDisplacement }, Option.none)
  | Option.some lm =>
      match lm.get? 0 with
      | Option.none => (st, Option.some JsError.typeError)
      | Option.some l0 =>
        let disp : Vec3 :=
          ⟨(l0.x - 1 / 2) * (-40), (1 / 2 - l0.y) * 30, st.handDisplacement.z⟩
        match lm.get? 8, lm.get? 6, lm.get? 12, lm.get? 10,
              lm.get? 20, lm.get? 18, lm.get? 4, lm.get? 2 with
        | Option.some l8, Option.some l6, Option.some l12, Option.some l10,
          Option.some l20, Option.some l18, Option.some l4, Option.some l2 =>
            ({ currentGesture :=
                 classifyGesture (decide (l8.y < l6.y)) (decide (l12.y < l10.y))
                   (decide (l20.y < l18.y)) (decide (l4.y < l2.y)),
               handDisplacement := disp }, Option.none)
        | _, _, _, _, _, _, _, _ =>
            ({ st with handDisplacement := disp }, Option.some JsError.typeError)

/-- The classifier state after the onResults callback ran (a thrown
TypeError propagates to the host, which keeps running, so the partially
updated state persists). -/
def onResultsState (hand : Option (List Landmark)) (st : ClassifierState) :
    ClassifierState :=
  (onResultsRun hand st).1

/-- The observable outcome of the onResults callback: the new classifier
state on normal termination, or the JavaScript error it threw. -/
def onResultsExc (hand : Option (List Landmark)) (st : ClassifierState) :
    Except JsError ClassifierState :=
  match onResultsRun hand st with
  | (s, Option.none) => Except.ok s
  | (_, Option.some e) => Except.error e

/-- The sampling grid of createTextPoints (lines 70 and 71 of main.js): the
canvas is 512 by 128 pixels and both loops advance by 2, so the scan visits
the pairs (2 xs, 2 ys) for ys below 64 and xs below 256, row by row. -/
def textGrid : List (ℕ × ℕ) :=
  (List.range (64 * 256)).map (fun k => (2 * (k % 256), 2 * (k / 256)))

/-- Lines 70 to 76 of main.js: scan the rasterized bitmap on the stride-2
grid, keep every position whose red channel exceeds 128, and map it to the
world-space point ((x - 256) * scale, (64 - y) * scale, 0).  The bitmap is
the external rasterizer output, abstracted as the red channel value at each
pixel. -/
def textForegroundPoints (red : ℕ → ℕ → ℕ) (scale : ℚ) : List Vec3 :=
  (textGrid.filter (fun p => decide (128 < red p.1 p.2))).map
    (fun p => ⟨((p.1 : ℚ) - 256) * scale, (64 - (p.2 : ℚ)) * scale, 0⟩)

/-- Lines 77 to 79 of main.js:
Array.from with the given length, element i being points[i % points.length]
cloned.  When the sampled list is empty and at least one element is
requested, JavaScript evaluates i % 0 to NaN, points[NaN] is undefined and
.clone() throws a TypeError at the very first index; this is modelled by
the error branch.  Otherwise every index i % points.length is in range and
the fill succeeds. -/
def cycleFill (pts : List Vec3) (count : ℕ) : Except JsError (List Vec3) :=
  if 0 < count ∧ pts.length = 0 then Except.error JsError.typeError
  else Except.ok ((List.range count).map (fun i => pts.getD (i % pts.length) ⟨0, 0, 0⟩))

/-- Lines 55 to 80 of main.js: createTextPoints, with the canvas
rasterization abstracted as the red channel function. -/
def createTextPoints (red : ℕ → ℕ → ℕ) (scale : ℚ) (count : ℕ) :
    Except JsError (List Vec3) :=
  cycleFill (textForegroundPoints red scale) count

/-- One axis of the morph update on lines 209 to 211 of main.js:
positions[a] += (t - positions[a]) * SMOOTHING + drift. -/
def morphAxis (pos target drift : ℚ) : ℚ := pos + (target - pos) * SMOOTHING + drift

/-- One frame of the morph loop for a single particle when a target set is
selected (lines 207 to 211 with targetSet non-null, so drift = 0). -/
def morphStep (pos target : Vec3) : Vec3 :=
  ⟨morphAxis pos.x target.x 0, morphAxis pos.y target.y 0, morphAxis pos.z target.z 0⟩

/-- k consecutive frames of the morph update toward a fixed target. -/
def morphIter (target : Vec3) : ℕ → Vec3 → Vec3
  | 0, p => p
  | k + 1, p => morphIter target k (morphStep p target)

/-- k consecutive no-hand displacement decay updates (line 169). -/
def decayIter : ℕ → Vec3 → Vec3
  | 0, d => d
  | k + 1, d => decayIter k (decayStep d)

/-- Lines 92 to 100 of main.js: the dispersed random cloud, each component
being (Math.random() - 0.5) * 60; the three random streams are explicit. -/
def randomCloud (n : ℕ) (r1 r2 r3 : ℕ → ℚ) : List Vec3 :=
  (List.range n).map (fun i =>
    ⟨(r1 i - 1 / 2) * 60, (r2 i - 1 / 2) * 60, (r3 i - 1 / 2) * 60⟩)

/-- Three-component real vector, used for the planet shape whose
construction involves acos, sqrt, sin, cos and pi. -/
structure RVec3 where
  x : ℝ
  y : ℝ
  z : ℝ

/-- Squared Euclidean norm of a real vector. -/
noncomputable def rnorm2 (v : RVec3) : ℝ := v.x ^ 2 + v.y ^ 2 + v.z ^ 2

/-- THREE.Vector3.setFromSphericalCoords(radius, phi, theta):
x = radius * sin(phi) * sin(theta), y = radius * cos(phi),
z = radius * sin(phi) * cos(theta). -/
noncomputable def sphericalToCartesian (radius phi theta : ℝ) : RVec3 :=
  ⟨radius * Real.sin phi * Real.sin theta,
   radius * Real.cos phi,
   radius * Real.sin phi * Real.cos theta⟩

/-- Line 106 of main.js: phi = acos(-1 + (2 * i) / coreCount). -/
noncomputable def saturnCorePhi (coreCount : ℝ) (i : ℕ) : ℝ :=
  Real.arccos (-1 + 2 * (i : ℝ) / coreCount)

/-- Line 107 of main.js: theta = sqrt(coreCount * pi) * phi. -/
noncomputable def saturnCoreTheta (coreCount : ℝ) (i : ℕ) : ℝ :=
  Real.sqrt (coreCount * Real.pi) * saturnCorePhi coreCount i

/-- Lines 102 to 118 of main.js: element i of the saturn point set for a
session with n particles and device-tier scale s.  Indices with
i < n * 0.4 form the spherical core; the rest form the ring, whose three
Math.random() draws are the explicit streams u1 (azimuth), u2 (radius) and
u3 (vertical jitter), each valued in the unit interval.  Note that the
vertical jitter (Math.random() - 0.5) * 0.6 is not multiplied by s. -/
noncomputable def saturnPoint (n : ℕ) (s : ℝ) (u1 u2 u3 : ℕ → ℝ) (i : ℕ) : RVec3 :=
  let coreCount : ℝ := (n : ℝ) * (4 / 10)
  if (i : ℝ) < coreCount then
    sphericalToCartesian (15 * s) (saturnCorePhi coreCount i) (saturnCoreTheta coreCount i)
  else
    let angle := u1 i * (2 * Real.pi)
    let radius := (20 + u2 i * 6) * s
    ⟨Real.cos angle * radius, (u3 i - 1 / 2) * (6 / 10), Real.sin angle * radius⟩

/-- The full saturn point set, Array.from of length n over saturnPoint. -/
noncomputable def saturnPoints (n : ℕ) (s : ℝ) (u1 u2 u3 : ℕ → ℝ) : List RVec3 :=
  (List.range n).map (saturnPoint n s u1 u2 u3)

/-- The five named point sets produced by initShapes (lines 85 to 119). -/
structure Shapes where
  willYouPoints : List Vec3
  beMyPoints : List Vec3
  valentinesPoints : List Vec3
  saturnPoints : List RVec3
  randomPoints : List Vec3

/-- Lines 85 to 119 of main.js: initShapes.  The three text bitmaps are the
abstracted rasterizer outputs for WILL YOU, BE MY and VALENTINE?; scale is
getResponsiveScale(); s is the device-tier saturn scale (0.6 on mobile,
1.0 otherwise); the random streams are explicit.  A TypeError thrown by a
text fill propagates. -/
noncomputable def initShapes (n : ℕ) (redWillYou redBeMy redValentine : ℕ → ℕ → ℕ)
    (scale : ℚ) (s : ℝ) (u1 u2 u3 : ℕ → ℝ) (r1 r2 r3 : ℕ → ℚ) :
    Except JsError Shapes :=
  match createTextPoints redWillYou scale n, createTextPoints redBeMy scale n,
        createTextPoints redValentine scale n with
  | Except.ok w, Except.ok b, Except.ok v =>
      Except.ok ⟨w, b, v, saturnPoints n s u1 u2 u3, randomCloud n r1 r2 r3⟩
  | Except.error e, _, _ => Except.error e
  | _, Except.error e, _ => Except.error e
  | _, _, Except.error e => Except.error e

/-- Lines 124 to 126 of main.js: the live particle buffer is a Float32Array
of n * 3 zero-initialized components, that is n particles at the origin;
it is allocated once and never reallocated. -/
def particleBuffer (n : ℕ) : List Vec3 := List.replicate n ⟨0, 0, 0⟩

/-- The externally triggered events that write the shared mutable state
relevant to the displacement and the cloud translation: a landmark frame
(lines 150 to 171), a render step (line 202,
particleSystem.position.lerp(handDisplacement, ELASTICITY)), and a resize
(lines 221 to 231, which regenerates shapes and touches neither the
classifier state nor the cloud position). -/
inductive Event where
  | frame (hand : Option (List Landmark))
  | render
  | resize

/-- The part of the global mutable state the displacement claims are
about: the classifier state and the particle system position. -/
structure SysState where
  classifier : ClassifierState
  cloudPos : Vec3
deriving DecidableEq

/-- The effect of one event on the system state. -/
def stepEvent (e : Event) (s : SysState) : SysState :=
  match e with
  | Event.frame h => ⟨onResultsState h s.classifier, s.cloudPos⟩
  | Event.render =>
      ⟨s.classifier, lerpVec s.cloudPos s.classifier.handDisplacement ELASTICITY⟩
  | Event.resize => s

/-- Running a list of events from a state, oldest first. -/
def runEvents (evs : List Event) (s : SysState) : SysState :=
  evs.foldl (fun t e => stepEvent e t) s

/-- The initial state: currentGesture = none (line 11), handDisplacement =
(0, 0, 0) (line 13), particleSystem.position = (0, 0, 0) (THREE default). -/
def initState : SysState := ⟨⟨Gesture.none, ⟨0, 0, 0⟩⟩, ⟨0, 0, 0⟩⟩

/-- Claim C1: for every landmark frame with a detected hand, the gesture is
a pure function of the four boolean finger-extended predicates (index,
middle, pinky, thumb, each tip.y below joint.y) and reproduces the priority
table exactly: index and middle without pinky gives peace; otherwise index
and pinky without middle gives rock; otherwise thumb without index and
middle gives like; otherwise none of index, middle, pinky gives fist; any
other input gives detected.  In particular (true, true, false, false)
yields peace and all four false yield fist. -/
theorem gesture_table_correct
    (i m p t : Bool) (lm : List Landmark) (st : ClassifierState)
    (l0 l8 l6 l12 l10 l20 l18 l4 l2 : Landmark)
    (h0 : lm[0]? = Option.some l0) (h8 : lm[8]? = Option.some l8)
    (h6 : lm[6]? = Option.some l6) (h12 : lm[12]? = Option.some l12)
    (h10 : lm[10]? = Option.some l10) (h20 : lm[20]? = Option.some l20)
    (h18 : lm[18]? = Option.some l18) (h4 : lm[4]? = Option.some l4)
    (h2 : lm[2]? = Option.some l2) :
    classifyGesture i m p t = gestureSpecTable i m p t
    ∧ classifyGesture true true false false = Gesture.peace
    ∧ classifyGesture false false false false = Gesture.fist
    ∧ (onResultsState (Option.some lm) st).currentGesture =
        classifyGesture (decide (l8.y < l6.y)) (decide (l12.y < l10.y))
          (decide (l20.y < l18.y)) (decide (l4.y < l2.y)) := by
  refine ⟨by revert i m p t; decide, by decide, by decide, ?_⟩
  simp [onResultsState, onResultsRun, h0, h8, h6, h12, h10, h20, h18, h4, h2]

/-- Witness for C1 at a concrete frame of 21 landmarks all at the origin,
with all four predicates evaluated at that frame. -/
theorem gesture_table_correct_witness :
    classifyGesture true true false false = gestureSpecTable true true false false
    ∧ classifyGesture true true false false = Gesture.peace
    ∧ classifyGesture false false false false = Gesture.fist
    ∧ (onResultsState (Option.some (List.replicate 21 (⟨0, 0⟩ : Landmark)))
         ⟨Gesture.none, ⟨0, 0, 0⟩⟩).currentGesture =
        classifyGesture (decide ((0 : ℚ) < 0)) (decide ((0 : ℚ) < 0))
          (decide ((0 : ℚ) < 0)) (decide ((0 : ℚ) < 0)) :=
  gesture_table_correct true true false false
    (List.replicate 21 ⟨0, 0⟩) ⟨Gesture.none, ⟨0, 0, 0⟩⟩
    ⟨0, 0⟩ ⟨0, 0⟩ ⟨0, 0⟩ ⟨0, 0⟩ ⟨0, 0⟩ ⟨0, 0⟩ ⟨0, 0⟩ ⟨0, 0⟩ ⟨0, 0⟩
    (by decide) (by decide) (by decide) (by decide) (by decide)
    (by decide) (by decide) (by decide) (by decide)

/-- Claim C3 (evidence of a code bug): a detected hand whose landmark list
has a single entry is not rejected by falling back to the none or detected
path; the callback throws a TypeError from the out-of-range landmark read,
and the gesture keeps its previous value (here peace). -/
theorem malformed_landmarks_throw :
    onResultsExc (Option.some [⟨1 / 2, 1 / 2⟩]) ⟨Gesture.peace, ⟨0, 0, 0⟩⟩ =
      Except.error JsError.typeError
    ∧ (onResultsState (Option.some [⟨1 / 2, 1 / 2⟩])
        ⟨Gesture.peace, ⟨0, 0, 0⟩⟩).currentGesture = Gesture.peace :=
  ⟨rfl, rfl⟩

/-- A bitmap whose red channel is zero everywhere yields no foreground
samples. -/
theorem textForegroundPoints_all_dark (scale : ℚ) :
    textForegroundPoints (fun _ _ => 0) scale = [] := by
  simp [textForegroundPoints]

/-- A bitmap whose red channel is 255 everywhere keeps every grid sample,
so the sampled foreground count is 64 * 256. -/
theorem textForegroundPoints_all_bright_length (scale : ℚ) :
    (textForegroundPoints (fun _ _ => 255) scale).length = 64 * 256 := by
  simp [textForegroundPoints, textGrid]

/-- Claim C2 (counterexample): with an all-dark bitmap (zero foreground
samples) and five requested points, text point-set generation does not
fail with a deliberate configuration error; it throws a TypeError from
the undefined element lookup produced by the modulo by zero. -/
theorem text_zero_pixels_cex :
    createTextPoints (fun _ _ => 0) 1 5 = Except.error JsError.typeError
    ∧ JsError.typeError ≠ JsError.configError := by
  refine ⟨?_, by decide⟩
  rw [createTextPoints, textForegroundPoints_all_dark]
  rfl

/-- Claim C2 (amended): for every bitmap whose sampled foreground count is
zero and every positive requested count, text point-set generation fails
fast with a TypeError thrown at the first fill index (in JavaScript the
modulo by zero yields NaN, the lookup yields undefined and .clone() on
undefined throws); it neither loops forever nor silently returns a
point set containing NaN coordinates. -/
theorem text_zero_pixels_fails_fast (red : ℕ → ℕ → ℕ) (scale : ℚ) (count : ℕ)
    (hM : (textForegroundPoints red scale).length = 0) (hc : 0 < count) :
    createTextPoints red scale count = Except.error JsError.typeError := by
  unfold createTextPoints cycleFill
  rw [if_pos ⟨hc, hM⟩]

/-- Witness for the amended C2 at the all-dark bitmap with five requested
points. -/
theorem text_zero_pixels_fails_fast_witness :
    (textForegroundPoints (fun _ _ => 0) 1).length = 0 ∧ 0 < 5
    ∧ createTextPoints (fun _ _ => 0) 1 5 = Except.error JsError.typeError := by
  have hM : (textForegroundPoints (fun _ _ => 0) 1).length = 0 := by
    rw [textForegroundPoints_all_dark]
    rfl
  exact ⟨hM, by decide, text_zero_pixels_fails_fast (fun _ _ => 0) 1 5 hM (by decide)⟩

/-- Claim C5: for every requested count and every bitmap whose sampled
foreground count M satisfies 1 <= M < count, text point-set generation
produces exactly count points in which element i equals element i mod M of
the M sampled foreground positions. -/
theorem text_cycle_fill (red : ℕ → ℕ → ℕ) (scale : ℚ) (count : ℕ)
    (h1 : 1 ≤ (textForegroundPoints red scale).length)
    (h2 : (textForegroundPoints red scale).length < count) :
    ∃ out, createTextPoints red scale count = Except.ok out
      ∧ out.length = count
      ∧ ∀ i, i < count →
          out.getD i ⟨0, 0, 0⟩ =
            (textForegroundPoints red scale).getD
              (i % (textForegroundPoints red scale).length) ⟨0, 0, 0⟩ := by
  have hne : ¬(0 < count ∧ (textForegroundPoints red scale).length = 0) := by
    omega
  have hres : createTextPoints red scale count =
      Except.ok ((List.range count).map
        (fun i => (textForegroundPoints red scale).getD
          (i % (textForegroundPoints red scale).length) ⟨0, 0, 0⟩)) := by
    unfold createTextPoints cycleFill
    rw [if_neg hne]
  refine ⟨_, hres, by simp, ?_⟩
  intro i hi
  have hlen : i < ((List.range count).map
      (fun i => (textForegroundPoints red scale).getD
        (i % (textForegroundPoints red scale).length) ⟨0, 0, 0⟩)).length := by
    simpa using hi
  rw [List.getD_eq_getElem _ _ hlen]
  simp

/-- Witness for C5 at the all-bright bitmap (M = 16384) and a requested
count of 20000. -/
theorem text_cycle_fill_witness :
    (1 ≤ (textForegroundPoints (fun _ _ => 255) 1).length
      ∧ (textForegroundPoints (fun _ _ => 255) 1).length < 20000)
    ∧ ∃ out, createTextPoints (fun _ _ => 255) 1 20000 = Except.ok out
      ∧ out.length = 20000
      ∧ ∀ i, i < 20000 →
          out.getD i ⟨0, 0, 0⟩ =
            (textForegroundPoints (fun _ _ => 255) 1).getD
              (i % (textForegroundPoints (fun _ _ => 255) 1).length) ⟨0, 0, 0⟩ := by
  have h1 : 1 ≤ (textForegroundPoints (fun _ _ => 255) 1).length := by
    rw [textForegroundPoints_all_bright_length]
    omega
  have h2 : (textForegroundPoints (fun _ _ => 255) 1).length < 20000 := by
    rw [textForegroundPoints_all_bright_length]
    omega
  exact ⟨⟨h1, h2⟩, text_cycle_fill (fun _ _ => 255) 1 20000 h1 h2⟩

/-- The squared norm is nonnegative. -/
theorem norm2_nonneg (v : Vec3) : 0 ≤ norm2 v := by
  have hx := sq_nonneg v.x
  have hy := sq_nonneg v.y
  have hz := sq_nonneg v.z
  simp only [norm2]
  linarith

/-- The squared norm of a nonzero vector is positive. -/
theorem norm2_pos_of_ne (v : Vec3) (h : v ≠ ⟨0, 0, 0⟩) : 0 < norm2 v := by
  rcases v with ⟨x, y, z⟩
  have hc : x ≠ 0 ∨ y ≠ 0 ∨ z ≠ 0 := by
    by_contra hall
    push_neg at hall
    exact h (by simp [hall.1, hall.2.1, hall.2.2])
  simp only [norm2]
  rcases hc with hx | hy | hz
  · nlinarith [sq_nonneg y, sq_nonneg z, sq_pos_of_ne_zero hx]
  · nlinarith [sq_nonneg x, sq_nonneg z, sq_pos_of_ne_zero hy]
  · nlinarith [sq_nonneg x, sq_nonneg y, sq_pos_of_ne_zero hz]

/-- Componentwise difference vanishes exactly on equal vectors. -/
theorem vsub_eq_zero_iff (a b : Vec3) : vsub a b = ⟨0, 0, 0⟩ ↔ a = b := by
  cases a
  cases b
  simp [vsub, Vec3.mk.injEq, sub_eq_zero]

/-- The squared norm scales with the square of a scalar factor. -/
theorem norm2_smul (c : ℚ) (v : Vec3) : norm2 (smul c v) = c ^ 2 * norm2 v := by
  simp only [norm2, smul]
  ring

/-- The squared norm of a difference is symmetric. -/
theorem norm2_vsub_comm (a b : Vec3) : norm2 (vsub a b) = norm2 (vsub b a) := by
  simp only [norm2, vsub]
  ring

/-- One morph frame scales the residual to the target by 1 - SMOOTHING. -/
theorem vsub_morphStep (p t : Vec3) :
    vsub t (morphStep p t) = smul (23 / 25) (vsub t p) := by
  simp only [vsub, morphStep, morphAxis, smul, SMOOTHING, Vec3.mk.injEq]
  refine ⟨by ring, by ring, by ring⟩

/-- After k morph frames the residual is (1 - SMOOTHING) ^ k times the
initial residual. -/
theorem vsub_morphIter (t p : Vec3) (k : ℕ) :
    vsub t (morphIter t k p) = smul ((23 / 25) ^ k) (vsub t p) := by
  induction k generalizing p with
  | zero => simp [morphIter, smul]
  | succ k ih =>
      rw [morphIter, ih (morphStep p t), vsub_morphStep]
      simp only [smul, Vec3.mk.injEq]
      refine ⟨by ring, by ring, by ring⟩

/-- Squared distance to the target after k morph frames, in closed form. -/
theorem dist2_morphIter (t p : Vec3) (k : ℕ) :
    dist2 (morphIter t k p) t = ((23 / 25) ^ k) ^ 2 * dist2 p t := by
  rw [dist2, norm2_vsub_comm, vsub_morphIter, norm2_smul, dist2, norm2_vsub_comm]

/-- Claim C4: with a fixed target selected and no drift term, each frame
updates every particle per axis by pos += (target - pos) * SMOOTHING with
SMOOTHING = 0.08; hence for a particle not at its target the squared
distance to the target strictly decreases every frame, after k frames the
residual is (1 - 0.08) ^ k times the initial offset, and after 60 frames
the squared distance is below the square of 1 percent of the initial
offset. -/
theorem morph_convergence (p t : Vec3) (k : ℕ) (h : p ≠ t) :
    morphStep p t = ⟨p.x + (t.x - p.x) * SMOOTHING,
                     p.y + (t.y - p.y) * SMOOTHING,
                     p.z + (t.z - p.z) * SMOOTHING⟩
    ∧ vsub t (morphIter t k p) = smul ((23 / 25) ^ k) (vsub t p)
    ∧ dist2 (morphIter t (k + 1) p) t < dist2 (morphIter t k p) t
    ∧ dist2 (morphIter t 60 p) t ≤ (1 / 100) ^ 2 * dist2 p t := by
  have hvne : vsub t p ≠ (⟨0, 0, 0⟩ : Vec3) := by
    intro hz
    exact h ((vsub_eq_zero_iff t p).mp hz).symm
  have hd0 : 0 < dist2 p t := by
    rw [dist2, norm2_vsub_comm]
    exact norm2_pos_of_ne _ hvne
  refine ⟨by simp [morphStep, morphAxis], vsub_morphIter t p k, ?_, ?_⟩
  · rw [dist2_morphIter, dist2_morphIter]
    have hpow : ((23 / 25 : ℚ) ^ (k + 1)) ^ 2 < ((23 / 25 : ℚ) ^ k) ^ 2 := by
      rw [← pow_mul, ← pow_mul]
      exact pow_lt_pow_right_of_lt_one₀ (by norm_num) (by norm_num) (by omega)
    exact mul_lt_mul_of_pos_right hpow hd0
  · rw [dist2_morphIter]
    have hpow : ((23 / 25 : ℚ) ^ 60) ^ 2 ≤ (1 / 100 : ℚ) ^ 2 := by
      rw [← pow_mul]
      norm_num
    exact mul_le_mul_of_nonneg_right hpow (le_of_lt hd0)

/-- Witness for C4 at the particle (1, 2, 3), the target at the origin and
k = 1. -/
theorem morph_convergence_witness :
    (⟨1, 2, 3⟩ : Vec3) ≠ (⟨0, 0, 0⟩ : Vec3)
    ∧ (morphStep ⟨1, 2, 3⟩ ⟨0, 0, 0⟩ =
        ⟨1 + (0 - 1) * SMOOTHING, 2 + (0 - 2) * SMOOTHING, 3 + (0 - 3) * SMOOTHING⟩
    ∧ vsub ⟨0, 0, 0⟩ (morphIter ⟨0, 0, 0⟩ 1 ⟨1, 2, 3⟩) =
        smul ((23 / 25) ^ 1) (vsub ⟨0, 0, 0⟩ ⟨1, 2, 3⟩)
    ∧ dist2 (morphIter ⟨0, 0, 0⟩ (1 + 1) ⟨1, 2, 3⟩) ⟨0, 0, 0⟩ <
        dist2 (morphIter ⟨0, 0, 0⟩ 1 ⟨1, 2, 3⟩) ⟨0, 0, 0⟩
    ∧ dist2 (morphIter ⟨0, 0, 0⟩ 60 ⟨1, 2, 3⟩) ⟨0, 0, 0⟩ ≤
        (1 / 100) ^ 2 * dist2 ⟨1, 2, 3⟩ ⟨0, 0, 0⟩) :=
  ⟨by decide, morph_convergence ⟨1, 2, 3⟩ ⟨0, 0, 0⟩ 1 (by decide)⟩

/-- One no-hand decay update scales every component by 19 / 20. -/
theorem decayStep_eq (d : Vec3) :
    decayStep d = ⟨(19 / 20) * d.x, (19 / 20) * d.y, (19 / 20) * d.z⟩ := by
  simp only [decayStep, lerpVec, lerp1, Vec3.mk.injEq]
  refine ⟨by ring, by ring, by ring⟩

/-- After k no-hand decay updates every component is scaled by
(19 / 20) ^ k. -/
theorem decayIter_eq (d : Vec3) (k : ℕ) :
    decayIter k d =
      ⟨(19 / 20) ^ k * d.x, (19 / 20) ^ k * d.y, (19 / 20) ^ k * d.z⟩ := by
  induction k generalizing d with
  | zero => simp [decayIter]
  | succ k ih =>
      rw [decayIter, decayStep_eq, ih]
      simp only [Vec3.mk.injEq]
      refine ⟨by ring, by ring, by ring⟩

/-- Squared magnitude of the displacement after k decay updates. -/
theorem norm2_decayIter (d : Vec3) (k : ℕ) :
    norm2 (decayIter k d) = ((19 / 20) ^ k) ^ 2 * norm2 d := by
  rw [decayIter_eq]
  simp only [norm2]
  ring

/-- Claim C8: on a landmark frame with no detected hand the gesture is
forced to none and the displacement is blended toward the zero vector at
factor 0.05 per update rather than snapped; each component after k such
updates equals (19 / 20) ^ k times its start value, the squared magnitude
strictly shrinks on every update while the displacement is nonzero, and
every component keeps its sign, so the displacement never overshoots past
zero. -/
theorem no_hand_decay (d : Vec3) (st : ClassifierState) (k : ℕ)
    (hd : d ≠ ⟨0, 0, 0⟩) :
    onResultsState Option.none st = ⟨Gesture.none, decayStep st.handDisplacement⟩
    ∧ decayStep st.handDisplacement =
        lerpVec st.handDisplacement ⟨0, 0, 0⟩ (5 / 100)
    ∧ decayIter k d =
        ⟨(19 / 20) ^ k * d.x, (19 / 20) ^ k * d.y, (19 / 20) ^ k * d.z⟩
    ∧ norm2 (decayIter (k + 1) d) < norm2 (decayIter k d)
    ∧ 0 ≤ (decayIter k d).x * d.x ∧ 0 ≤ (decayIter k d).y * d.y
    ∧ 0 ≤ (decayIter k d).z * d.z := by
  have hn0 : 0 < norm2 d := norm2_pos_of_ne d hd
  have hscale : (0 : ℚ) ≤ (19 / 20) ^ k := by positivity
  refine ⟨rfl, rfl, decayIter_eq d k, ?_, ?_, ?_, ?_⟩
  · rw [norm2_decayIter, norm2_decayIter]
    have hpow : ((19 / 20 : ℚ) ^ (k + 1)) ^ 2 < ((19 / 20 : ℚ) ^ k) ^ 2 := by
      rw [← pow_mul, ← pow_mul]
      exact pow_lt_pow_right_of_lt_one₀ (by norm_num) (by norm_num) (by omega)
    exact mul_lt_mul_of_pos_right hpow hn0
  · rw [decayIter_eq]
    nlinarith [sq_nonneg d.x]
  · rw [decayIter_eq]
    nlinarith [sq_nonneg d.y]
  · rw [decayIter_eq]
    nlinarith [sq_nonneg d.z]

/-- Witness for C8 at the scenario start displacement (10, -5, 0) over
k = 10 consecutive no-hand updates. -/
theorem no_hand_decay_witness :
    (⟨10, -5, 0⟩ : Vec3) ≠ (⟨0, 0, 0⟩ : Vec3)
    ∧ (onResultsState Option.none ⟨Gesture.peace, ⟨1, 2, 3⟩⟩ =
        ⟨Gesture.none, decayStep (⟨1, 2, 3⟩ : Vec3)⟩
    ∧ decayStep (⟨1, 2, 3⟩ : Vec3) = lerpVec ⟨1, 2, 3⟩ ⟨0, 0, 0⟩ (5 / 100)
    ∧ decayIter 10 ⟨10, -5, 0⟩ =
        ⟨(19 / 20) ^ 10 * 10, (19 / 20) ^ 10 * (-5), (19 / 20) ^ 10 * 0⟩
    ∧ norm2 (decayIter (10 + 1) ⟨10, -5, 0⟩) < norm2 (decayIter 10 ⟨10, -5, 0⟩)
    ∧ 0 ≤ (decayIter 10 (⟨10, -5, 0⟩ : Vec3)).x * 10
    ∧ 0 ≤ (decayIter 10 (⟨10, -5, 0⟩ : Vec3)).y * (-5)
    ∧ 0 ≤ (decayIter 10 (⟨10, -5, 0⟩ : Vec3)).z * 0) :=
  ⟨by decide, no_hand_decay ⟨10, -5, 0⟩ ⟨Gesture.peace, ⟨1, 2, 3⟩⟩ 10 (by decide)⟩

/-- The onResults callback never writes the z component of the
displacement: a hand frame copies the previous z and the no-hand decay
maps z = 0 to z = 0. -/
theorem onResultsState_z (hand : Option (List Landmark)) (st : ClassifierState)
    (h : st.handDisplacement.z = 0) :
    (onResultsState hand st).handDisplacement.z = 0 := by
  rcases hand with _ | lm
  · simp [onResultsState, onResultsRun, decayStep, lerpVec, lerp1, h]
  · simp only [onResultsState, onResultsRun]
    split
    · exact h
    · split
      · simpa using h
      · simpa using h

/-- Every event preserves the invariant that both the displacement and the
cloud position have a zero z component. -/
theorem stepEvent_z (e : Event) (s : SysState)
    (h1 : s.classifier.handDisplacement.z = 0) (h2 : s.cloudPos.z = 0) :
    (stepEvent e s).classifier.handDisplacement.z = 0
    ∧ (stepEvent e s).cloudPos.z = 0 := by
  rcases e with hand | _ | _
  · exact ⟨onResultsState_z hand s.classifier h1, h2⟩
  · exact ⟨h1, by simp [stepEvent, lerpVec, lerp1, h1, h2]⟩
  · exact ⟨h1, h2⟩

/-- Claim C10: the z component of the hand displacement stays exactly zero
in every state reachable from the initial state by landmark frames (with
or without a hand, well formed or malformed), render steps and resizes;
consequently the eased translation of the particle cloud toward the
displacement never moves the cloud along the z axis. -/
theorem displacement_z_invariant (evs : List Event) :
    (runEvents evs initState).classifier.handDisplacement.z = 0
    ∧ (runEvents evs initState).cloudPos.z = 0 := by
  suffices hgen : ∀ s : SysState, s.classifier.handDisplacement.z = 0 →
      s.cloudPos.z = 0 →
      (runEvents evs s).classifier.handDisplacement.z = 0
      ∧ (runEvents evs s).cloudPos.z = 0 by
    exact hgen initState rfl rfl
  induction evs with
  | nil => exact fun s h1 h2 => ⟨h1, h2⟩
  | cons e rest ih =>
      intro s h1 h2
      have hstep := stepEvent_z e s h1 h2
      exact ih (stepEvent e s) hstep.1 hstep.2

/-- With at least one sampled foreground pixel the text fill succeeds and
returns the modulo-cycling list. -/
theorem createTextPoints_ok (red : ℕ → ℕ → ℕ) (scale : ℚ) (count : ℕ)
    (h : textForegroundPoints red scale ≠ []) :
    createTextPoints red scale count =
      Except.ok ((List.range count).map
        (fun i => (textForegroundPoints red scale).getD
          (i % (textForegroundPoints red scale).length) ⟨0, 0, 0⟩)) := by
  have hlen : (textForegroundPoints red scale).length ≠ 0 := by
    simpa [List.length_eq_zero] using h
  unfold createTextPoints cycleFill
  rw [if_neg (by omega : ¬(0 < count ∧ (textForegroundPoints red scale).length = 0))]

/-- The saturn point set always has exactly n elements. -/
theorem saturnPoints_length (n : ℕ) (s : ℝ) (u1 u2 u3 : ℕ → ℝ) :
    (saturnPoints n s u1 u2 u3).length = n := by
  simp [saturnPoints]

/-- The dispersed random cloud always has exactly n elements. -/
theorem randomCloud_length (n : ℕ) (r1 r2 r3 : ℕ → ℚ) :
    (randomCloud n r1 r2 r3).length = n := by
  simp [randomCloud]

/-- Claim C9: every generated point set, namely the three text shapes, the
planet shape and the dispersed random cloud, has exactly the session
particle count many elements, equal to the length of the live particle
buffer; this holds for every generation, hence in particular for every
regeneration on resize, whatever the new responsive scale and random
draws are. -/
theorem shape_lengths (n : ℕ) (redW redB redV : ℕ → ℕ → ℕ) (scale : ℚ)
    (s : ℝ) (u1 u2 u3 : ℕ → ℝ) (r1 r2 r3 : ℕ → ℚ)
    (hW : textForegroundPoints redW scale ≠ [])
    (hB : textForegroundPoints redB scale ≠ [])
    (hV : textForegroundPoints redV scale ≠ []) :
    ∃ sh, initShapes n redW redB redV scale s u1 u2 u3 r1 r2 r3 = Except.ok sh
      ∧ sh.willYouPoints.length = n
      ∧ sh.beMyPoints.length = n
      ∧ sh.valentinesPoints.length = n
      ∧ sh.saturnPoints.length = n
      ∧ sh.randomPoints.length = n
      ∧ (particleBuffer n).length = n := by
  refine ⟨⟨(List.range n).map
      (fun i => (textForegroundPoints redW scale).getD
        (i % (textForegroundPoints redW scale).length) ⟨0, 0, 0⟩),
    (List.range n).map
      (fun i => (textForegroundPoints redB scale).getD
        (i % (textForegroundPoints redB scale).length) ⟨0, 0, 0⟩),
    (List.range n).map
      (fun i => (textForegroundPoints redV scale).getD
        (i % (textForegroundPoints redV scale).length) ⟨0, 0, 0⟩),
    saturnPoints n s u1 u2 u3, randomCloud n r1 r2 r3⟩,
    ?_, ?_, ?_, ?_, ?_, ?_, ?_⟩
  · simp only [initShapes, createTextPoints_ok redW scale n hW,
      createTextPoints_ok redB scale n hB, createTextPoints_ok redV scale n hV]
  · simp
  · simp
  · simp
  · exact saturnPoints_length n s u1 u2 u3
  · exact randomCloud_length n r1 r2 r3
  · simp [particleBuffer]

/-- Witness for C9 with 7 particles, all-bright bitmaps, unit scales and
constant random streams. -/
theorem shape_lengths_witness :
    (textForegroundPoints (fun _ _ => 255) 1 ≠ []
      ∧ textForegroundPoints (fun _ _ => 255) 1 ≠ []
      ∧ textForegroundPoints (fun _ _ => 255) 1 ≠ [])
    ∧ ∃ sh, initShapes 7 (fun _ _ => 255) (fun _ _ => 255) (fun _ _ => 255) 1 1
        (fun _ => 0) (fun _ => 0) (fun _ => 0) (fun _ => 0) (fun _ => 0)
        (fun _ => 0) = Except.ok sh
      ∧ sh.willYouPoints.length = 7
      ∧ sh.beMyPoints.length = 7
      ∧ sh.valentinesPoints.length = 7
      ∧ sh.saturnPoints.length = 7
      ∧ sh.randomPoints.length = 7
      ∧ (particleBuffer 7).length = 7 := by
  have hne : textForegroundPoints (fun _ _ => 255) 1 ≠ [] := by
    have := textForegroundPoints_all_bright_length 1
    intro hnil
    rw [hnil] at this
    simp at this
  exact ⟨⟨hne, hne, hne⟩,
    shape_lengths 7 (fun _ _ => 255) (fun _ _ => 255) (fun _ _ => 255) 1 1
      (fun _ => 0) (fun _ => 0) (fun _ => 0) (fun _ => 0) (fun _ => 0)
      (fun _ => 0) hne hne hne⟩

/-- Points from spherical coordinates lie on the sphere of the given
radius: the squared norm is the squared radius. -/
theorem rnorm2_sphericalToCartesian (r phi theta : ℝ) :
    rnorm2 (sphericalToCartesian r phi theta) = r ^ 2 := by
  simp only [rnorm2, sphericalToCartesian]
  have hs := Real.sin_sq_add_cos_sq theta
  have hp := Real.sin_sq_add_cos_sq phi
  linear_combination (r ^ 2 * Real.sin phi ^ 2) * hs + r ^ 2 * hp

/-- The core branch of the saturn generator, for indices below 0.4 n. -/
theorem saturnPoint_core (n : ℕ) (s : ℝ) (u1 u2 u3 : ℕ → ℝ) (i : ℕ)
    (hi : (i : ℝ) < (n : ℝ) * (4 / 10)) :
    saturnPoint n s u1 u2 u3 i =
      sphericalToCartesian (15 * s) (saturnCorePhi ((n : ℝ) * (4 / 10)) i)
        (saturnCoreTheta ((n : ℝ) * (4 / 10)) i) := by
  simp only [saturnPoint]
  rw [if_pos hi]

/-- The ring branch of the saturn generator, for indices at or above
0.4 n. -/
theorem saturnPoint_ring (n : ℕ) (s : ℝ) (u1 u2 u3 : ℕ → ℝ) (i : ℕ)
    (hi : ¬((i : ℝ) < (n : ℝ) * (4 / 10))) :
    saturnPoint n s u1 u2 u3 i =
      ⟨Real.cos (u1 i * (2 * Real.pi)) * ((20 + u2 i * 6) * s),
       (u3 i - 1 / 2) * (6 / 10),
       Real.sin (u1 i * (2 * Real.pi)) * ((20 + u2 i * 6) * s)⟩ := by
  simp only [saturnPoint]
  rw [if_neg hi]

/-- Claim C6 (counterexample): at n = 10 particles, mobile scale
s = 3 / 5 and vertical jitter draw 0, ring point 9 has vertical
coordinate -3/10, which is outside the claimed interval
[-0.3 s, 0.3 s] = [-9/50, 9/50]: the source does not scale the vertical
jitter by s. -/
theorem ring_jitter_unscaled_cex :
    (saturnPoint 10 (3 / 5) (fun _ => 0) (fun _ => 0) (fun _ => 0) 9).y = -(3 / 10)
    ∧ ¬(-((3 / 10 : ℝ) * (3 / 5)) ≤
          (saturnPoint 10 (3 / 5) (fun _ => 0) (fun _ => 0) (fun _ => 0) 9).y
        ∧ (saturnPoint 10 (3 / 5) (fun _ => 0) (fun _ => 0) (fun _ => 0) 9).y ≤
          (3 / 10 : ℝ) * (3 / 5)) := by
  have h9 : ¬(((9 : ℕ) : ℝ) < ((10 : ℕ) : ℝ) * (4 / 10)) := by
    push_cast
    norm_num
  have hy : (saturnPoint 10 (3 / 5) (fun _ => 0) (fun _ => 0) (fun _ => 0) 9).y =
      -(3 / 10) := by
    rw [saturnPoint_ring 10 (3 / 5) (fun _ => 0) (fun _ => 0) (fun _ => 0) 9 h9]
    norm_num
  refine ⟨hy, ?_⟩
  rw [hy]
  intro hcontra
  have := hcontra.1
  norm_num at this

/-- Claim C6 (amended): for a session of n particles with n divisible
by 5 and device-tier scale s at least 0, the planet set splits at index
2 n / 5, so the core holds 0.4 n points and the ring 0.6 n points; core
point i lies on the sphere of radius 15 s at polar angle
acos(-1 + 2 i / coreCount) and azimuth sqrt(coreCount pi) times that
angle; every ring point has squared horizontal radius between (20 s)
squared and (26 s) squared, and vertical coordinate in the unscaled
interval [-0.3, 0.3] (the source does not multiply the vertical jitter
by s). -/
theorem saturn_shape_spec (n : ℕ) (s : ℝ) (u1 u2 u3 : ℕ → ℝ) (i : ℕ)
    (h5 : 5 ∣ n) (hs : 0 ≤ s)
    (hu2a : 0 ≤ u2 i) (hu2b : u2 i < 1) (hu3a : 0 ≤ u3 i) (hu3b : u3 i < 1) :
    ((i : ℝ) < (n : ℝ) * (4 / 10) ↔ i < 2 * n / 5)
    ∧ (((i : ℝ) < (n : ℝ) * (4 / 10)) →
        saturnPoint n s u1 u2 u3 i =
          sphericalToCartesian (15 * s) (saturnCorePhi ((n : ℝ) * (4 / 10)) i)
            (saturnCoreTheta ((n : ℝ) * (4 / 10)) i)
        ∧ rnorm2 (saturnPoint n s u1 u2 u3 i) = (15 * s) ^ 2)
    ∧ (¬((i : ℝ) < (n : ℝ) * (4 / 10)) →
        (20 * s) ^ 2 ≤ (saturnPoint n s u1 u2 u3 i).x ^ 2 +
            (saturnPoint n s u1 u2 u3 i).z ^ 2
        ∧ (saturnPoint n s u1 u2 u3 i).x ^ 2 +
            (saturnPoint n s u1 u2 u3 i).z ^ 2 ≤ (26 * s) ^ 2
        ∧ -(3 / 10) ≤ (saturnPoint n s u1 u2 u3 i).y
        ∧ (saturnPoint n s u1 u2 u3 i).y ≤ 3 / 10) := by
  obtain ⟨k, hk⟩ := h5
  refine ⟨?_, ?_, ?_⟩
  · subst hk
    have hq : ((5 * k : ℕ) : ℝ) * (4 / 10) = ((2 * k : ℕ) : ℝ) := by
      push_cast
      ring
    rw [hq, Nat.cast_lt]
    omega
  · intro hi
    refine ⟨saturnPoint_core n s u1 u2 u3 i hi, ?_⟩
    rw [saturnPoint_core n s u1 u2 u3 i hi, rnorm2_sphericalToCartesian]
  · intro hi
    rw [saturnPoint_ring n s u1 u2 u3 i hi]
    have hxz : (Real.cos (u1 i * (2 * Real.pi)) * ((20 + u2 i * 6) * s)) ^ 2 +
        (Real.sin (u1 i * (2 * Real.pi)) * ((20 + u2 i * 6) * s)) ^ 2 =
        ((20 + u2 i * 6) * s) ^ 2 := by
      have hpyth := Real.sin_sq_add_cos_sq (u1 i * (2 * Real.pi))
      nlinarith [hpyth]
    have h1 : 0 ≤ u2 i * s ^ 2 := mul_nonneg hu2a (sq_nonneg s)
    have h2 : 0 ≤ u2 i ^ 2 * s ^ 2 := mul_nonneg (sq_nonneg _) (sq_nonneg s)
    have h3 : 0 ≤ (1 - u2 i) * s ^ 2 := mul_nonneg (by linarith) (sq_nonneg s)
    have h4 : 0 ≤ (1 - u2 i) * u2 i * s ^ 2 :=
      mul_nonneg (mul_nonneg (by linarith) hu2a) (sq_nonneg s)
    refine ⟨?_, ?_, by norm_num; linarith, by norm_num; linarith⟩
    · simp only [hxz]
      nlinarith [h1, h2]
    · simp only [hxz]
      nlinarith [h3, h4]

/-- Witness for the amended C6 at n = 10 particles, unit scale, constant
zero random streams and ring index 9. -/
theorem saturn_shape_spec_witness :
    ((5 : ℕ) ∣ 10 ∧ (0 : ℝ) ≤ 1 ∧ (0 : ℝ) ≤ 0 ∧ (0 : ℝ) < 1)
    ∧ ((((9 : ℕ) : ℝ) < ((10 : ℕ) : ℝ) * (4 / 10) ↔ 9 < 2 * 10 / 5)
    ∧ ((((9 : ℕ) : ℝ) < ((10 : ℕ) : ℝ) * (4 / 10)) →
        saturnPoint 10 1 (fun _ => 0) (fun _ => 0) (fun _ => 0) 9 =
          sphericalToCartesian (15 * 1)
            (saturnCorePhi (((10 : ℕ) : ℝ) * (4 / 10)) 9)
            (saturnCoreTheta (((10 : ℕ) : ℝ) * (4 / 10)) 9)
        ∧ rnorm2 (saturnPoint 10 1 (fun _ => 0) (fun _ => 0) (fun _ => 0) 9) =
            (15 * 1) ^ 2)
    ∧ (¬(((9 : ℕ) : ℝ) < ((10 : ℕ) : ℝ) * (4 / 10)) →
        (20 * 1) ^ 2 ≤
            (saturnPoint 10 1 (fun _ => 0) (fun _ => 0) (fun _ => 0) 9).x ^ 2 +
            (saturnPoint 10 1 (fun _ => 0) (fun _ => 0) (fun _ => 0) 9).z ^ 2
        ∧ (saturnPoint 10 1 (fun _ => 0) (fun _ => 0) (fun _ => 0) 9).x ^ 2 +
            (saturnPoint 10 1 (fun _ => 0) (fun _ => 0) (fun _ => 0) 9).z ^ 2 ≤
            (26 * 1) ^ 2
        ∧ -(3 / 10) ≤ (saturnPoint 10 1 (fun _ => 0) (fun _ => 0) (fun _ => 0) 9).y
        ∧ (saturnPoint 10 1 (fun _ => 0) (fun _ => 0) (fun _ => 0) 9).y ≤ 3 / 10)) :=
  ⟨⟨by decide, by norm_num, le_refl 0, by norm_num⟩,
    saturn_shape_spec 10 1 (fun _ => 0) (fun _ => 0) (fun _ => 0) 9
      (by decide) (by norm_num) (le_refl 0) (by norm_num) (le_refl 0) (by norm_num)⟩

/-- Claim C7 (counterexample): core point 0 of the planet does not sit at
polar angle 0: the source computes acos(-1 + 0) = pi, and at n = 10, unit
scale, the point lies at (0, -15, 0), on the opposite pole from the point
(0, 15, 0) that angles phi = 0, theta = 0 would give. -/
theorem core_point_zero_angle_cex :
    saturnCorePhi (((10 : ℕ) : ℝ) * (4 / 10)) 0 = Real.pi
    ∧ Real.pi ≠ 0
    ∧ (saturnPoint 10 1 (fun _ => 0) (fun _ => 0) (fun _ => 0) 0).y = -15
    ∧ (sphericalToCartesian (15 * 1) 0 0).y = 15 := by
  have hphi : saturnCorePhi (((10 : ℕ) : ℝ) * (4 / 10)) 0 = Real.pi := by
    unfold saturnCorePhi
    norm_num [Real.arccos_neg_one]
  have hc : ((0 : ℕ) : ℝ) < ((10 : ℕ) : ℝ) * (4 / 10) := by
    push_cast
    norm_num
  refine ⟨hphi, Real.pi_ne_zero, ?_, ?_⟩
  · rw [saturnPoint_core 10 1 (fun _ => 0) (fun _ => 0) (fun _ => 0) 0 hc]
    simp only [sphericalToCartesian, hphi, Real.cos_pi]
    norm_num
  · simp only [sphericalToCartesian, Real.cos_zero]
    norm_num

/-- Core point 0 always sits at the south pole (0, -(15 s), 0). -/
theorem saturnPoint_zero (n : ℕ) (s : ℝ) (u1 u2 u3 : ℕ → ℝ) (hn : 0 < n) :
    saturnPoint n s u1 u2 u3 0 = ⟨0, -(15 * s), 0⟩ := by
  have h1 : (1 : ℝ) ≤ (n : ℝ) := by exact_mod_cast hn
  have hc : ((0 : ℕ) : ℝ) < (n : ℝ) * (4 / 10) := by
    push_cast
    nlinarith
  rw [saturnPoint_core n s u1 u2 u3 0 hc]
  have hphi : saturnCorePhi ((n : ℝ) * (4 / 10)) 0 = Real.pi := by
    unfold saturnCorePhi
    norm_num [Real.arccos_neg_one]
  simp only [sphericalToCartesian, hphi, Real.sin_pi, Real.cos_pi, RVec3.mk.injEq]
  norm_num

/-- Claim C7 (amended): regenerating the planet shape after the scale
factor changes from s1 to s2 moves core point 0 from (0, -(15 s1), 0) to
(0, -(15 s2), 0): the radius moves from 15 s1 to exactly 15 s2 while the
angles, which do not depend on the scale, stay at phi = pi (not 0) and
theta = sqrt(0.4 n pi) times pi. -/
theorem core_point_zero_resize (n : ℕ) (s1 s2 : ℝ) (u1 u2 u3 v1 v2 v3 : ℕ → ℝ)
    (hn : 0 < n) :
    saturnCorePhi ((n : ℝ) * (4 / 10)) 0 = Real.pi
    ∧ saturnCoreTheta ((n : ℝ) * (4 / 10)) 0 =
        Real.sqrt ((n : ℝ) * (4 / 10) * Real.pi) * Real.pi
    ∧ saturnPoint n s1 u1 u2 u3 0 = ⟨0, -(15 * s1), 0⟩
    ∧ saturnPoint n s2 v1 v2 v3 0 = ⟨0, -(15 * s2), 0⟩ := by
  have hphi : saturnCorePhi ((n : ℝ) * (4 / 10)) 0 = Real.pi := by
    unfold saturnCorePhi
    norm_num [Real.arccos_neg_one]
  refine ⟨hphi, ?_, saturnPoint_zero n s1 u1 u2 u3 hn,
    saturnPoint_zero n s2 v1 v2 v3 hn⟩
  rw [saturnCoreTheta, hphi]

/-- Witness for the amended C7 at n = 10, scales 1 and 2 and constant
zero random streams. -/
theorem core_point_zero_resize_witness :
    0 < 10
    ∧ (saturnCorePhi (((10 : ℕ) : ℝ) * (4 / 10)) 0 = Real.pi
    ∧ saturnCoreTheta (((10 : ℕ) : ℝ) * (4 / 10)) 0 =
        Real.sqrt (((10 : ℕ) : ℝ) * (4 / 10) * Real.pi) * Real.pi
    ∧ saturnPoint 10 1 (fun _ => 0) (fun _ => 0) (fun _ => 0) 0 = ⟨0, -(15 * 1), 0⟩
    ∧ saturnPoint 10 2 (fun _ => 0) (fun _ => 0) (fun _ => 0) 0 = ⟨0, -(15 * 2), 0⟩) :=
  ⟨by decide, core_point_zero_resize 10 1 2 (fun _ => 0) (fun _ => 0) (fun _ => 0)
    (fun _ => 0) (fun _ => 0) (fun _ => 0) (by decide)⟩

end Valentines
